import Mathlib

/-
  Verification development for the map-app backend (src/server.js).

  The repository is a single Express + Mongoose HTTP service with one data
  model (`markerSchema`, src/server.js:48-80, plus the unique compound index
  on line 78) and two endpoints (GET /markers, lines 92-102, and
  POST /markers, lines 126-145).

  The embedding below translates:
  - request-body field values as a small JS-value type (number / string /
    absent), since the handler destructures `req.body` untyped;
  - Mongoose casting and path validation for the schema paths
    `position.lat`, `position.lng`, `content` (type casting, `required`,
    `min`, `max`, `trim`, `minlength`, `maxlength`), with the exact error
    message strings of the source;
  - the collection as a list of markers, `Marker.create` as validation
    followed by the atomic unique-index check on (`position.lat`,
    `position.lng`) and insert, and `Marker.find().sort('-createdAt')` as a
    stable sort by `createdAt` descending;
  - the two route handlers as functions from the outcome of the awaited
    storage call to an HTTP response, mirroring their try/catch blocks.

  Numbers are modelled as rationals; timestamps as integers.  Mongoose
  number casting via the JS `Number()` conversion is modelled for plain
  decimal literals (optional sign, integer and fraction digits), which is
  the fragment the claims exercise; likewise number-to-string casting is
  exact on integral values.
-/

namespace MapApp

/-- A JSON value as it can appear in a request-body field: a number, a
string, or absent (`undefined`).  Numbers are modelled as rationals. -/
inductive Value where
  | num (q : ℚ)
  | str (s : String)
  | undef
  deriving DecidableEq

/-- The request body of POST /markers after JSON decoding: the handler
destructures `const { lat, lng, content } = req.body` (src/server.js:128). -/
structure ReqBody where
  lat : Value
  lng : Value
  content : Value
  deriving DecidableEq

/-- A persisted marker document: `_id` (assigned at creation), the position
pair, the content text, and the `createdAt` timestamp
(src/server.js:48-75). -/
structure Marker where
  id : Nat
  lat : ℚ
  lng : ℚ
  content : String
  createdAt : Int
  deriving DecidableEq

/-- Strip leading and trailing whitespace from a character list, as the JS
`String.prototype.trim` used by the schema's `trim: true` setter does. -/
def jsTrimChars (l : List Char) : List Char :=
  ((l.dropWhile Char.isWhitespace).reverse.dropWhile Char.isWhitespace).reverse

/-- Whitespace trimming on strings (the `trim: true` setter of the
`content` path, src/server.js:66). -/
def jsTrim (s : String) : String :=
  String.mk (jsTrimChars s.data)

/-- Value of a nonempty list of decimal digit characters; `none` when the
list is empty or holds a non-digit. -/
def decDigitsVal (l : List Char) : Option Nat :=
  if l = [] then none
  else l.foldl (fun acc c =>
    match acc with
    | none => none
    | some n => if c.isDigit then some (n * 10 + (c.toNat - 48)) else none)
    (some (0 : Nat))

/-- JS `Number(string)` conversion on plain decimal literals: trimmed empty
string gives 0, otherwise an optional sign, integer digits and an optional
fraction.  Other strings (and literal forms outside this fragment) give
`none`, which Mongoose turns into a cast error. -/
def jsStringToNumber (s : String) : Option ℚ :=
  let t := (jsTrim s).data
  if t = [] then some 0
  else
    let signBody : Bool × List Char :=
      match t with
      | c :: cs => if c = '-' then (true, cs) else if c = '+' then (false, cs) else (false, t)
      | [] => (false, t)
    let neg := signBody.1
    let body := signBody.2
    let intPart := body.takeWhile (fun c => c ≠ '.')
    let rest := body.dropWhile (fun c => c ≠ '.')
    let mag : Option ℚ :=
      match rest with
      | [] => (decDigitsVal intPart).map (fun n => (n : ℚ))
      | _ :: frac =>
        if frac.any (fun c => c = '.') then none
        else if intPart = [] ∧ frac = [] then none
        else
          let ip : Option Nat := if intPart = [] then some 0 else decDigitsVal intPart
          let fp : Option Nat := if frac = [] then some 0 else decDigitsVal frac
          match ip, fp with
          | some i, some f => some ((i : ℚ) + (f : ℚ) / ((10 : ℚ) ^ frac.length))
          | _, _ => none
    mag.map (fun q => if neg then -q else q)

/-- JS number-to-string conversion, exact on integral values (the only ones
the development evaluates it on). -/
def jsNumberToString (q : ℚ) : String :=
  if q.den = 1 then toString q.num else toString q

/-- Outcome of Mongoose casting a request value to a schema path type:
the field was absent, the cast failed, or it produced a typed value. -/
inductive Cast (α : Type) where
  | missing
  | castError
  | ok (a : α)

/-- Mongoose cast of a request value to `Number` (paths `position.lat`,
`position.lng`): numbers pass through, numeric strings are converted via
`Number()`, absence stays absent. -/
def castNumber : Value → Cast ℚ
  | .undef => .missing
  | .num q => .ok q
  | .str s =>
    match jsStringToNumber s with
    | some q => .ok q
    | none => .castError

/-- Mongoose cast of a request value to `String` (path `content`): strings
pass through, numbers are converted to their decimal string. -/
def castString : Value → Cast String
  | .undef => .missing
  | .str s => .ok s
  | .num q => .ok (jsNumberToString q)

/-- Error message of the `required` validator on `position.lat`
(src/server.js:52). -/
def msgLatRequired : String := "纬度不能为空"

/-- Error message of the `min` validator on `position.lat`
(src/server.js:53). -/
def msgLatMin : String := "纬度不能小于-90"

/-- Error message of the `max` validator on `position.lat`
(src/server.js:54). -/
def msgLatMax : String := "纬度不能大于90"

/-- Error message of the `required` validator on `position.lng`
(src/server.js:58). -/
def msgLngRequired : String := "经度不能为空"

/-- Error message of the `min` validator on `position.lng`
(src/server.js:59). -/
def msgLngMin : String := "经度不能小于-180"

/-- Error message of the `max` validator on `position.lng`
(src/server.js:60). -/
def msgLngMax : String := "经度不能大于180"

/-- Error message of the `required` validator on `content`
(src/server.js:65). -/
def msgContentRequired : String := "标注内容不能为空"

/-- Error message of the `minlength` validator on `content`
(src/server.js:67). -/
def msgContentMin : String := "内容至少需要1个字符"

/-- Error message of the `maxlength` validator on `content`
(src/server.js:68). -/
def msgContentMax : String := "内容不能超过200个字符"

/-- Mongoose cast-error message for a non-numeric value on
`position.lat`. -/
def msgCastLat : String := "Cast to Number failed for value at path position.lat"

/-- Mongoose cast-error message for a non-numeric value on
`position.lng`. -/
def msgCastLng : String := "Cast to Number failed for value at path position.lng"

/-- MongoDB duplicate-key error message prefix raised by the unique
compound index of src/server.js:78. -/
def msgDuplicateKey : String := "E11000 duplicate key error"

/-- Generic failure message of the GET /markers handler
(src/server.js:99). -/
def msgGetFailed : String := "获取数据失败"

/-- A sample internal message of an underlying storage / I/O failure, as
carried by a driver error's `message` property. -/
def msgConnLost : String := "connection timed out to mongodb primary replica"

/-- Validation of the `position.lat` path: cast to number, `required`,
then `min: -90`, then `max: 90`, each with its message
(src/server.js:50-55). -/
def validateLat (v : Value) : Except String ℚ :=
  match castNumber v with
  | .missing => .error msgLatRequired
  | .castError => .error msgCastLat
  | .ok q =>
    if q < -90 then .error msgLatMin
    else if 90 < q then .error msgLatMax
    else .ok q

/-- Validation of the `position.lng` path: cast to number, `required`,
then `min: -180`, then `max: 180`, each with its message
(src/server.js:56-61). -/
def validateLng (v : Value) : Except String ℚ :=
  match castNumber v with
  | .missing => .error msgLngRequired
  | .castError => .error msgCastLng
  | .ok q =>
    if q < -180 then .error msgLngMin
    else if 180 < q then .error msgLngMax
    else .ok q

/-- Validation of the `content` path: cast to string, apply the `trim`
setter, then `required` (which for Mongoose strings also rejects the empty
string), `minlength: 1`, `maxlength: 200` (src/server.js:63-69). -/
def validateContent (v : Value) : Except String String :=
  match castString v with
  | .missing => .error msgContentRequired
  | .castError => .error msgContentRequired
  | .ok s =>
    let t := jsTrim s
    if t.length = 0 then .error msgContentRequired
    else if t.length < 1 then .error msgContentMin
    else if 200 < t.length then .error msgContentMax
    else .ok t

/-- A validated, normalized marker draft: numeric position and trimmed
content, not yet assigned an id or timestamp. -/
structure Draft where
  lat : ℚ
  lng : ℚ
  content : String
  deriving DecidableEq

/-- Error message carried by a path's validation outcome: one message for
a failed path (Mongoose keeps the first failing validator per path), none
for a passing one. -/
def errsOf {α : Type} : Except String α → List String
  | .error m => [m]
  | .ok _ => []

/-- Whole-document validation: Mongoose validates every schema path and
collects the failures in schema declaration order — `position.lat`, then
`position.lng`, then `content` (src/server.js:48-69).  The result is the
draft on success, or the nonempty ordered list of path error messages. -/
def validate (b : ReqBody) : Except (List String) Draft :=
  match validateLat b.lat, validateLng b.lng, validateContent b.content with
  | .ok la, .ok ln, .ok c => .ok ⟨la, ln, c⟩
  | latr, lngr, cr => .error (errsOf latr ++ errsOf lngr ++ errsOf cr)

/-- Errors that `Marker.create` can raise: a ValidationError carrying the
ordered path messages, or the duplicate-key error of the unique index of
src/server.js:78. -/
inductive CreateError where
  | validationError (msgs : List String)
  | duplicateKeyError (msg : String)
  deriving DecidableEq

/-- Whether the collection already holds a marker at exactly the given
(lat, lng) position — the predicate the unique compound index
`{ 'position.lat': 1, 'position.lng': 1 }` enforces (src/server.js:78). -/
def hasMarkerAt (store : List Marker) (la ln : ℚ) : Bool :=
  store.any (fun m => decide (m.lat = la) && decide (m.lng = ln))

/-- `Marker.create` (src/server.js:130-133): validate the document; on
success the storage layer atomically checks the unique (lat, lng) index and
inserts.  Returns the outcome together with the resulting collection; on
any error the collection is unchanged. -/
def create (store : List Marker) (id : Nat) (now : Int) (b : ReqBody) :
    Except CreateError Marker × List Marker :=
  match validate b with
  | .error m => (.error (.validationError m), store)
  | .ok d =>
    if hasMarkerAt store d.lat d.lng then
      (.error (.duplicateKeyError msgDuplicateKey), store)
    else
      let mk : Marker := ⟨id, d.lat, d.lng, d.content, now⟩
      (.ok mk, store ++ [mk])

/-- Ordering used by `Marker.find().sort('-createdAt')`
(src/server.js:94): `createdAt` descending. -/
def byCreatedAtDesc (a b : Marker) : Prop := b.createdAt ≤ a.createdAt

instance : DecidableRel byCreatedAtDesc :=
  fun a b => inferInstanceAs (Decidable (b.createdAt ≤ a.createdAt))

instance : IsTotal Marker byCreatedAtDesc :=
  ⟨fun a b => (le_total b.createdAt a.createdAt).imp id id⟩

instance : IsTrans Marker byCreatedAtDesc :=
  ⟨fun _ _ _ h h' => le_trans h' h⟩

/-- `Marker.find().sort('-createdAt')` (src/server.js:94): every stored
record, sorted by `createdAt` descending. -/
def listAll (store : List Marker) : List Marker :=
  List.insertionSort byCreatedAtDesc store

/-- A JSON document, as produced by `res.json`. -/
inductive Json where
  | num (q : ℚ)
  | str (s : String)
  | obj (fields : List (String × Json))
  | arr (elems : List Json)

/-- Top-level field names of a JSON object. -/
def Json.keys : Json → List String
  | .obj fields => fields.map Prod.fst
  | _ => []

/-- Default Mongoose document serialization of a marker, as `res.json`
receives it (src/server.js:95 and 137): the stored paths plus the MongoDB
`_id` and the Mongoose version key `__v` — no virtuals such as `id` are
enabled on `markerSchema`. -/
def markerToJson (m : Marker) : Json :=
  .obj [("_id", .num m.id),
        ("position", .obj [("lat", .num m.lat), ("lng", .num m.lng)]),
        ("content", .str m.content),
        ("createdAt", .num m.createdAt),
        ("__v", .num 0)]

/-- An error thrown inside a route handler's `try` block: a Mongoose
ValidationError (carrying the ordered path messages), a MongoDB
duplicate-key error, or an underlying storage / I/O failure. -/
inductive JsError where
  | validationError (msgs : List String)
  | duplicateKeyError (msg : String)
  | storeError (msg : String)
  deriving DecidableEq

/-- A Mongoose ValidationError's `message`: the prefix followed by the
per-path messages joined with a separator. -/
def validationMessage (msgs : List String) : String :=
  "Marker validation failed: " ++ String.intercalate ", " msgs

/-- The `err.message` property read by the POST handler's catch block
(src/server.js:142). -/
def JsError.message : JsError → String
  | .validationError msgs => validationMessage msgs
  | .duplicateKeyError m => m
  | .storeError m => m

/-- Embedding of a `CreateError` as the thrown JS error. -/
def CreateError.toJsError : CreateError → JsError
  | .validationError msgs => .validationError msgs
  | .duplicateKeyError m => .duplicateKeyError m

/-- An HTTP response: status code and JSON body. -/
structure HttpResponse where
  status : Nat
  body : Json

/-- Response status string of a successful handler. -/
def statusSuccess : String := "success"

/-- Response status string of the GET handler's catch block. -/
def statusError : String := "error"

/-- Response status string of the POST handler's catch block. -/
def statusFail : String := "fail"

/-- The GET /markers handler (src/server.js:92-102), as a function of the
outcome of `await Marker.find().sort('-createdAt')`: on success a 200 with
the serialized list, on any thrown error a 500 with the fixed generic
message. -/
def getMarkersHandler (outcome : Except JsError (List Marker)) : HttpResponse :=
  match outcome with
  | .ok ms =>
    ⟨200, .obj [("status", .str statusSuccess), ("data", .arr (ms.map markerToJson))]⟩
  | .error _ =>
    ⟨500, .obj [("status", .str statusError), ("message", .str msgGetFailed)]⟩

/-- The POST /markers handler (src/server.js:126-145), as a function of the
outcome of `await Marker.create(...)`: on success a 201 with the serialized
document, on ANY thrown error — validation, duplicate key, or storage
failure alike — a 400 carrying `err.message`. -/
def postMarkersHandler (outcome : Except JsError Marker) : HttpResponse :=
  match outcome with
  | .ok m =>
    ⟨201, .obj [("status", .str statusSuccess), ("data", markerToJson m)]⟩
  | .error e =>
    ⟨400, .obj [("status", .str statusFail), ("message", .str e.message)]⟩

/-- The full POST /markers path when storage itself is reachable: run
`Marker.create` on the request body, feed its outcome to the handler, and
return the response together with the resulting collection. -/
def postMarkers (store : List Marker) (id : Nat) (now : Int) (b : ReqBody) :
    HttpResponse × List Marker :=
  let r := create store id now b
  (postMarkersHandler (r.1.mapError CreateError.toJsError), r.2)

/-- A sequence of `create` calls — the serialization of concurrent POSTs
that the atomic unique-index check yields — each with its own id,
timestamp and body, threaded through the collection state. -/
def createSeq (store : List Marker) :
    List (Nat × Int × ReqBody) → List (Except CreateError Marker) × List Marker
  | [] => ([], store)
  | c :: rest =>
    let r := create store c.1 c.2.1 c.2.2
    let rs := createSeq r.2 rest
    (r.1 :: rs.1, rs.2)

/-- Number of stored markers at exactly the given (lat, lng) position. -/
def countAt (store : List Marker) (la ln : ℚ) : Nat :=
  store.countP (fun m => decide (m.lat = la) && decide (m.lng = ln))

/-- The store invariant enforced by the unique compound index
(src/server.js:78): no two stored markers share the same (lat, lng)
pair. -/
def distinctPositions (store : List Marker) : Prop :=
  store.Pairwise (fun a b => a.lat ≠ b.lat ∨ a.lng ≠ b.lng)

/-- Whether a `create` outcome is a success. -/
def createSucceeded : Except CreateError Marker → Bool
  | .ok _ => true
  | .error _ => false

/- ===== Helper lemmas ===== -/

lemma dropWhile_head_false (p : Char → Bool) (l : List Char) (a : Char) (t : List Char)
    (h : l.dropWhile p = a :: t) : p a = false := by
  have h2 := List.head_dropWhile_not p l (by simp [h])
  simpa [h] using h2

lemma dropWhile_jsTrimChars (l : List Char) :
    (jsTrimChars l).dropWhile Char.isWhitespace = jsTrimChars l := by
  unfold jsTrimChars
  rcases hd : l.dropWhile Char.isWhitespace with _ | ⟨a, t0⟩
  · simp
  · have hpa : Char.isWhitespace a = false := dropWhile_head_false _ l a t0 hd
    rcases hr : ((a :: t0).reverse.dropWhile Char.isWhitespace).reverse with _ | ⟨b, rest⟩
    · simp [hr]
    · have hpref : ((a :: t0).reverse.dropWhile Char.isWhitespace).reverse <+: a :: t0 := by
        have hs : (a :: t0).reverse.dropWhile Char.isWhitespace <:+ (a :: t0).reverse :=
          List.dropWhile_suffix _
        simpa using List.reverse_prefix.mpr hs
      rw [hr] at hpref
      obtain ⟨u, hu⟩ := hpref
      have hb : b = a := by
        simp at hu
        exact hu.1
      rw [hb]
      simp [List.dropWhile_cons, hpa]

lemma jsTrimChars_idempotent (l : List Char) :
    jsTrimChars (jsTrimChars l) = jsTrimChars l := by
  conv_lhs => rw [jsTrimChars]
  rw [dropWhile_jsTrimChars]
  unfold jsTrimChars
  rw [List.reverse_reverse, List.dropWhile_idempotent]

lemma jsTrim_idempotent (s : String) : jsTrim (jsTrim s) = jsTrim s := by
  unfold jsTrim
  rw [show (String.mk (jsTrimChars s.data)).data = jsTrimChars s.data from rfl]
  rw [jsTrimChars_idempotent]

lemma validateContent_ok (v : Value) (c : String) (h : validateContent v = .ok c) :
    (∀ s : String, v = .str s → c = jsTrim s) ∧
      jsTrim c = c ∧ 1 ≤ c.length ∧ c.length ≤ 200 ∧ c ≠ "" := by
  unfold validateContent at h
  rcases hcs : castString v with _ | _ | s <;> rw [hcs] at h
  · simp at h
  · simp at h
  · by_cases h1 : (jsTrim s).length = 0
    · simp [h1] at h
    · by_cases h3 : 200 < (jsTrim s).length
      · simp [h1, h3] at h
      · simp [h1, h3] at h
        subst h
        refine ⟨?_, jsTrim_idempotent s, by omega, by omega, ?_⟩
        · intro s0 hs0
          rw [hs0] at hcs
          have : s = s0 := by
            simpa [castString] using hcs.symm
          rw [this]
        · intro hempty
          rw [hempty] at h1
          exact h1 rfl

lemma validate_ok (b : ReqBody) (d : Draft) (h : validate b = .ok d) :
    validateLat b.lat = .ok d.lat ∧ validateLng b.lng = .ok d.lng ∧
      validateContent b.content = .ok d.content := by
  unfold validate at h
  rcases hla : validateLat b.lat with m | la <;> rw [hla] at h
  · rcases validateLng b.lng with m2 | ln <;> rcases validateContent b.content with m3 | c <;>
      simp at h
  · rcases hln : validateLng b.lng with m2 | ln <;> rw [hln] at h
    · rcases validateContent b.content with m3 | c <;> simp at h
    · rcases hc : validateContent b.content with m3 | c <;> rw [hc] at h
      · simp at h
      · simp at h
        cases h
        exact ⟨rfl, rfl, rfl⟩

lemma validate_error_of_lat (b : ReqBody) (m : String)
    (h : validateLat b.lat = .error m) :
    ∃ msgs, validate b = .error msgs ∧ m ∈ msgs := by
  unfold validate
  rw [h]
  rcases validateLng b.lng with m2 | ln <;> rcases validateContent b.content with m3 | c <;>
    exact ⟨_, rfl, by simp [errsOf]⟩

lemma validate_error_of_lng (b : ReqBody) (m : String)
    (h : validateLng b.lng = .error m) :
    ∃ msgs, validate b = .error msgs ∧ m ∈ msgs := by
  unfold validate
  rw [h]
  rcases validateLat b.lat with m2 | la <;> rcases validateContent b.content with m3 | c <;>
    exact ⟨_, rfl, by simp [errsOf]⟩

lemma create_of_validate_error (store : List Marker) (id : Nat) (now : Int) (b : ReqBody)
    (msgs : List String) (h : validate b = .error msgs) :
    create store id now b = (.error (.validationError msgs), store) := by
  unfold create
  rw [h]

lemma create_of_duplicate (store : List Marker) (id : Nat) (now : Int) (b : ReqBody)
    (d : Draft) (h : validate b = .ok d) (hdup : hasMarkerAt store d.lat d.lng = true) :
    create store id now b = (.error (.duplicateKeyError msgDuplicateKey), store) := by
  simp [create, h, hdup]

lemma create_of_fresh (store : List Marker) (id : Nat) (now : Int) (b : ReqBody)
    (d : Draft) (h : validate b = .ok d) (hfresh : hasMarkerAt store d.lat d.lng = false) :
    create store id now b =
      (.ok ⟨id, d.lat, d.lng, d.content, now⟩, store ++ [⟨id, d.lat, d.lng, d.content, now⟩]) := by
  simp [create, h, hfresh]

lemma hasMarkerAt_iff (store : List Marker) (la ln : ℚ) :
    hasMarkerAt store la ln = true ↔ ∃ m ∈ store, m.lat = la ∧ m.lng = ln := by
  unfold hasMarkerAt
  rw [List.any_eq_true]
  constructor
  · rintro ⟨m, hm, hb⟩
    rw [Bool.and_eq_true, decide_eq_true_iff, decide_eq_true_iff] at hb
    exact ⟨m, hm, hb⟩
  · rintro ⟨m, hm, h1, h2⟩
    exact ⟨m, hm, by rw [Bool.and_eq_true, decide_eq_true_iff, decide_eq_true_iff]; exact ⟨h1, h2⟩⟩

lemma countAt_append (s t : List Marker) (la ln : ℚ) :
    countAt (s ++ t) la ln = countAt s la ln + countAt t la ln := by
  unfold countAt
  exact List.countP_append _ _ _

lemma countAt_pos (store : List Marker) (la ln : ℚ)
    (h : hasMarkerAt store la ln = true) : 1 ≤ countAt store la ln := by
  obtain ⟨m, hm, h1, h2⟩ := (hasMarkerAt_iff store la ln).mp h
  unfold countAt
  have : (fun m : Marker => decide (m.lat = la) && decide (m.lng = ln)) m = true := by
    simp [h1, h2]
  exact List.countP_pos_iff.mpr ⟨m, hm, this⟩

lemma countAt_eq_zero (store : List Marker) (la ln : ℚ)
    (h : hasMarkerAt store la ln = false) : countAt store la ln = 0 := by
  unfold countAt
  rw [List.countP_eq_zero]
  intro m hm
  intro hb
  rw [Bool.and_eq_true, decide_eq_true_iff, decide_eq_true_iff] at hb
  have : hasMarkerAt store la ln = true := (hasMarkerAt_iff store la ln).mpr ⟨m, hm, hb⟩
  rw [h] at this
  exact Bool.false_ne_true this

lemma countAt_le_one (store : List Marker) (la ln : ℚ) (h : distinctPositions store) :
    countAt store la ln ≤ 1 := by
  induction store with
  | nil => simp [countAt]
  | cons m rest ih =>
    unfold distinctPositions at h
    rw [List.pairwise_cons] at h
    by_cases hm : m.lat = la ∧ m.lng = ln
    · have hrest : countAt rest la ln = 0 := by
        unfold countAt
        rw [List.countP_eq_zero]
        intro x hx hb
        rw [Bool.and_eq_true, decide_eq_true_iff, decide_eq_true_iff] at hb
        rcases h.1 x hx with hne | hne
        · exact hne (by rw [hm.1, hb.1])
        · exact hne (by rw [hm.2, hb.2])
      unfold countAt at hrest ⊢
      rw [List.countP_cons]
      simp [hm.1, hm.2, hrest]
    · unfold countAt at ih ⊢
      rw [List.countP_cons]
      have : (decide (m.lat = la) && decide (m.lng = ln)) = false := by
        rcases not_and_or.mp hm with hne | hne <;> simp [hne]
      rw [this]
      simpa using ih h.2

lemma distinctPositions_create (store : List Marker) (id : Nat) (now : Int) (b : ReqBody)
    (h : distinctPositions store) : distinctPositions (create store id now b).2 := by
  rcases hv : validate b with msgs | d
  · rw [create_of_validate_error store id now b msgs hv]
    exact h
  · rcases hdup : hasMarkerAt store d.lat d.lng with _ | _
    · rw [create_of_fresh store id now b d hv hdup]
      unfold distinctPositions at h ⊢
      rw [List.pairwise_append]
      refine ⟨h, List.pairwise_singleton _ _, ?_⟩
      intro a ha mk hmk
      rw [List.mem_singleton] at hmk
      subst hmk
      by_contra hcon
      rw [not_or, not_not, not_not] at hcon
      have : hasMarkerAt store d.lat d.lng = true :=
        (hasMarkerAt_iff store d.lat d.lng).mpr ⟨a, ha, hcon.1, hcon.2⟩
      rw [hdup] at this
      exact Bool.false_ne_true this
    · rw [create_of_duplicate store id now b d hv hdup]
      exact h

lemma createSeq_all_dup (la ln : ℚ) (calls : List (Nat × Int × ReqBody)) (store : List Marker)
    (hstore : hasMarkerAt store la ln = true)
    (hbodies : ∀ c ∈ calls, ∃ d, validate c.2.2 = .ok d ∧ d.lat = la ∧ d.lng = ln) :
    (createSeq store calls).1 =
        calls.map (fun _ => .error (.duplicateKeyError msgDuplicateKey)) ∧
      (createSeq store calls).2 = store := by
  induction calls generalizing store with
  | nil => exact ⟨rfl, rfl⟩
  | cons c rest ih =>
    obtain ⟨d, hd, hla, hln⟩ := hbodies c (List.mem_cons_self _ _)
    have hdup : hasMarkerAt store d.lat d.lng = true := by
      rw [hla, hln]
      exact hstore
    have hcr := create_of_duplicate store c.1 c.2.1 c.2.2 d hd hdup
    have hrest := ih store hstore (fun x hx => hbodies x (List.mem_cons_of_mem _ hx))
    simp only [createSeq, hcr, List.map_cons]
    exact ⟨by rw [hrest.1], hrest.2⟩

lemma createSeq_length (store : List Marker) (calls : List (Nat × Int × ReqBody)) :
    (createSeq store calls).1.length = calls.length := by
  induction calls generalizing store with
  | nil => rfl
  | cons c rest ih =>
    simp only [createSeq, List.length_cons]
    rw [ih]

lemma createSeq_one_success (la ln : ℚ) (calls : List (Nat × Int × ReqBody))
    (store : List Marker)
    (hstore : hasMarkerAt store la ln = false)
    (hbodies : ∀ c ∈ calls, ∃ d, validate c.2.2 = .ok d ∧ d.lat = la ∧ d.lng = ln)
    (hne : calls ≠ []) :
    (createSeq store calls).1.countP createSucceeded = 1 ∧
      (∀ r ∈ (createSeq store calls).1, createSucceeded r = false →
        r = .error (.duplicateKeyError msgDuplicateKey)) ∧
      countAt (createSeq store calls).2 la ln = countAt store la ln + 1 := by
  rcases calls with _ | ⟨c, rest⟩
  · exact absurd rfl hne
  · obtain ⟨d, hd, hla, hln⟩ := hbodies c (List.mem_cons_self _ _)
    have hfresh : hasMarkerAt store d.lat d.lng = false := by
      rw [hla, hln]
      exact hstore
    have hcr := create_of_fresh store c.1 c.2.1 c.2.2 d hd hfresh
    have hmk : hasMarkerAt (store ++ [⟨c.1, d.lat, d.lng, d.content, c.2.1⟩]) la ln = true := by
      apply (hasMarkerAt_iff _ la ln).mpr
      exact ⟨⟨c.1, d.lat, d.lng, d.content, c.2.1⟩, by simp, hla, hln⟩
    have hrest := createSeq_all_dup la ln rest
      (store ++ [⟨c.1, d.lat, d.lng, d.content, c.2.1⟩]) hmk
      (fun x hx => hbodies x (List.mem_cons_of_mem _ hx))
    simp only [createSeq, hcr]
    refine ⟨?_, ?_, ?_⟩
    · rw [List.countP_cons, hrest.1]
      have hz : (rest.map
          (fun _ => (.error (.duplicateKeyError msgDuplicateKey) :
            Except CreateError Marker))).countP createSucceeded = 0 := by
        rw [List.countP_eq_zero]
        intro r hr
        rw [List.mem_map] at hr
        obtain ⟨x, _, hx⟩ := hr
        rw [← hx]
        simp [createSucceeded]
      rw [hz]
      simp [createSucceeded]
    · intro r hr hfail
      rw [hrest.1] at hr
      rcases List.mem_cons.mp hr with heq | hmem
      · rw [heq] at hfail
        simp [createSucceeded] at hfail
      · rw [List.mem_map] at hmem
        obtain ⟨x, _, hx⟩ := hmem
        exact hx.symm
    · rw [hrest.2, countAt_append]
      have h1 : countAt [⟨c.1, d.lat, d.lng, d.content, c.2.1⟩] la ln = 1 := by
        unfold countAt
        simp [List.countP_cons, hla, hln]
      rw [h1]

/- ===== Claim theorems ===== -/

/-- C1: the store never holds two markers with the same (lat, lng) pair —
`create` preserves pairwise-distinct positions — and a second create at an
already-occupied position fails with a DuplicateKeyError, inserts no
record, and leaves exactly one record at that position. -/
theorem uniquePositionInvariant :
    (∀ (store : List Marker) (id : Nat) (now : Int) (b : ReqBody),
      distinctPositions store → distinctPositions (create store id now b).2) ∧
    (∀ (store : List Marker) (id : Nat) (now : Int) (b : ReqBody) (d : Draft),
      validate b = .ok d → hasMarkerAt store d.lat d.lng = true →
      (create store id now b).1 = .error (.duplicateKeyError msgDuplicateKey) ∧
        (create store id now b).2 = store ∧
        (distinctPositions store → countAt (create store id now b).2 d.lat d.lng = 1)) := by
  constructor
  · exact distinctPositions_create
  · intro store id now b d hv hdup
    have hcr := create_of_duplicate store id now b d hv hdup
    refine ⟨by rw [hcr], by rw [hcr], ?_⟩
    intro hdist
    rw [hcr]
    exact le_antisymm (countAt_le_one store d.lat d.lng hdist) (countAt_pos store d.lat d.lng hdup)

/-- C1 witness: with one marker stored at (5, 6), a second create at
exactly (5, 6) fails with the duplicate-key error, the store is unchanged,
and it holds exactly one record at that position. -/
theorem uniquePositionInvariant_witness :
    (create [⟨1, 5, 6, "a", 0⟩] 2 1 ⟨.num 5, .num 6, .str "b"⟩).1 =
        .error (.duplicateKeyError msgDuplicateKey) ∧
      (create [⟨1, 5, 6, "a", 0⟩] 2 1 ⟨.num 5, .num 6, .str "b"⟩).2 = [⟨1, 5, 6, "a", 0⟩] ∧
      countAt (create [⟨1, 5, 6, "a", 0⟩] 2 1 ⟨.num 5, .num 6, .str "b"⟩).2 5 6 = 1 := by
  obtain ⟨h1, h2, h3⟩ := uniquePositionInvariant.2 [⟨1, 5, 6, "a", 0⟩] 2 1
    ⟨.num 5, .num 6, .str "b"⟩ ⟨5, 6, "b"⟩ rfl (by decide)
  exact ⟨h1, h2, h3 (by simp [distinctPositions])⟩

/-- C2: a latitude outside [-90, 90], or a longitude outside [-180, 180],
makes `create` fail with a ValidationError that carries the corresponding
range message, and the store is unchanged. -/
theorem createRejectsOutOfRange :
    (∀ (store : List Marker) (id : Nat) (now : Int) (q : ℚ) (lngv cv : Value),
      q < -90 ∨ 90 < q →
      ∃ msgs, (create store id now ⟨.num q, lngv, cv⟩).1 = .error (.validationError msgs) ∧
        (if q < -90 then msgLatMin else msgLatMax) ∈ msgs ∧
        (create store id now ⟨.num q, lngv, cv⟩).2 = store) ∧
    (∀ (store : List Marker) (id : Nat) (now : Int) (latv : Value) (q : ℚ) (cv : Value),
      q < -180 ∨ 180 < q →
      ∃ msgs, (create store id now ⟨latv, .num q, cv⟩).1 = .error (.validationError msgs) ∧
        (if q < -180 then msgLngMin else msgLngMax) ∈ msgs ∧
        (create store id now ⟨latv, .num q, cv⟩).2 = store) := by
  constructor
  · intro store id now q lngv cv hq
    have hlat : validateLat (.num q) = .error (if q < -90 then msgLatMin else msgLatMax) := by
      by_cases h1 : q < -90
      · simp [validateLat, castNumber, h1]
      · have h2 : 90 < q := hq.resolve_left h1
        simp [validateLat, castNumber, h1, h2]
    obtain ⟨msgs, hv, hm⟩ := validate_error_of_lat ⟨.num q, lngv, cv⟩ _ hlat
    have hcr := create_of_validate_error store id now _ msgs hv
    exact ⟨msgs, by rw [hcr], hm, by rw [hcr]⟩
  · intro store id now latv q cv hq
    have hlng : validateLng (.num q) = .error (if q < -180 then msgLngMin else msgLngMax) := by
      by_cases h1 : q < -180
      · simp [validateLng, castNumber, h1]
      · have h2 : 180 < q := hq.resolve_left h1
        simp [validateLng, castNumber, h1, h2]
    obtain ⟨msgs, hv, hm⟩ := validate_error_of_lng ⟨latv, .num q, cv⟩ _ hlng
    have hcr := create_of_validate_error store id now _ msgs hv
    exact ⟨msgs, by rw [hcr], hm, by rw [hcr]⟩

/-- C2 witness: a create with latitude 91 fails with a ValidationError
carrying the latitude-maximum message, and the (empty) store is
unchanged. -/
theorem createRejectsOutOfRange_witness :
    ∃ msgs, (create [] 1 0 ⟨.num 91, .num 0, .str "x"⟩).1 = .error (.validationError msgs) ∧
      msgLatMax ∈ msgs ∧
      (create [] 1 0 ⟨.num 91, .num 0, .str "x"⟩).2 = [] := by
  have h := createRejectsOutOfRange.1 [] 1 0 91 (.num 0) (.str "x")
    (Or.inr (by norm_num))
  rw [if_neg (by norm_num)] at h
  exact h

/-- C3: when `create` succeeds on a string content, the stored content is
the input trimmed of surrounding whitespace with trimmed length in
[1, 200], and is never empty or whitespace-only after trimming; when the
trimmed length is outside [1, 200], `create` cannot succeed. -/
theorem contentTrimmedAndBounded :
    (∀ (store : List Marker) (id : Nat) (now : Int) (latv lngv : Value) (s : String)
      (mk : Marker),
      (create store id now ⟨latv, lngv, .str s⟩).1 = .ok mk →
      mk.content = jsTrim s ∧ 1 ≤ mk.content.length ∧ mk.content.length ≤ 200 ∧
        jsTrim mk.content ≠ "") ∧
    (∀ (store : List Marker) (id : Nat) (now : Int) (latv lngv : Value) (s : String),
      (jsTrim s).length = 0 ∨ 200 < (jsTrim s).length →
      ∀ mk, (create store id now ⟨latv, lngv, .str s⟩).1 ≠ .ok mk) := by
  constructor
  · intro store id now latv lngv s mk h
    rcases hv : validate ⟨latv, lngv, .str s⟩ with msgs | d
    · rw [create_of_validate_error store id now _ msgs hv] at h
      exact absurd h (by simp)
    · rcases hdup : hasMarkerAt store d.lat d.lng with _ | _
      · rw [create_of_fresh store id now _ d hv hdup] at h
        have hmk : mk = ⟨id, d.lat, d.lng, d.content, now⟩ := by
          simpa using h.symm
        have hcv := (validate_ok _ d hv).2.2
        obtain ⟨hstr, hidem, hlen1, hlen2, hne⟩ := validateContent_ok _ d.content hcv
        have hc : d.content = jsTrim s := hstr s rfl
        rw [hmk]
        refine ⟨hc, by simpa using hlen1, by simpa using hlen2, ?_⟩
        simpa [hidem] using hne
      · rw [create_of_duplicate store id now _ d hv hdup] at h
        exact absurd h (by simp)
  · intro store id now latv lngv s hbad mk h
    rcases hv : validate ⟨latv, lngv, .str s⟩ with msgs | d
    · rw [create_of_validate_error store id now _ msgs hv] at h
      exact absurd h (by simp)
    · have hcv := (validate_ok _ d hv).2.2
      obtain ⟨hstr, _, hlen1, hlen2, _⟩ := validateContent_ok _ d.content hcv
      have hc : d.content = jsTrim s := hstr s rfl
      rw [hc] at hlen1 hlen2
      rcases hbad with h0 | hbig
      · omega
      · omega

/-- C3 witness: creating with content " hi " stores "hi", whose length is
in [1, 200] and which is not whitespace-only. -/
theorem contentTrimmedAndBounded_witness :
    ("hi" : String) = jsTrim " hi " ∧ 1 ≤ ("hi" : String).length ∧
      ("hi" : String).length ≤ 200 ∧ jsTrim "hi" ≠ "" := by
  exact contentTrimmedAndBounded.1 [] 1 0 (.num 1) (.num 2) " hi "
    ⟨1, 1, 2, "hi", 0⟩ rfl

/-- C4: `listAll` returns a permutation of the stored records sorted by
`createdAt` descending, and three markers created at times t1 < t2 < t3
are listed in the order t3, t2, t1. -/
theorem listAllSortedByCreatedAtDesc :
    (∀ store : List Marker, List.Perm (listAll store) store ∧
      (listAll store).Sorted byCreatedAtDesc) ∧
    (∀ t1 t2 t3 : Int, t1 < t2 → t2 < t3 →
      listAll (createSeq []
          [(1, t1, ⟨.num 0, .num 0, .str "a"⟩),
           (2, t2, ⟨.num 0, .num 1, .str "b"⟩),
           (3, t3, ⟨.num 0, .num 2, .str "c"⟩)]).2 =
        [⟨3, 0, 2, "c", t3⟩, ⟨2, 0, 1, "b", t2⟩, ⟨1, 0, 0, "a", t1⟩]) := by
  constructor
  · intro store
    exact ⟨List.perm_insertionSort byCreatedAtDesc store,
      List.sorted_insertionSort byCreatedAtDesc store⟩
  · intro t1 t2 t3 h12 h23
    have hstore : (createSeq []
        [(1, t1, (⟨.num 0, .num 0, .str "a"⟩ : ReqBody)),
         (2, t2, ⟨.num 0, .num 1, .str "b"⟩),
         (3, t3, ⟨.num 0, .num 2, .str "c"⟩)]).2 =
        [⟨1, 0, 0, "a", t1⟩, ⟨2, 0, 1, "b", t2⟩, ⟨3, 0, 2, "c", t3⟩] := rfl
    rw [hstore]
    have n32 : ¬ (t3 ≤ t2) := by omega
    have n31 : ¬ (t3 ≤ t1) := by omega
    have n21 : ¬ (t2 ≤ t1) := by omega
    simp [listAll, List.insertionSort, List.orderedInsert, byCreatedAtDesc, n32, n31, n21]

/-- C4 witness: markers created at times 1 < 2 < 3 are listed newest
first. -/
theorem listAllSortedByCreatedAtDesc_witness :
    listAll (createSeq []
        [(1, 1, ⟨.num 0, .num 0, .str "a"⟩),
         (2, 2, ⟨.num 0, .num 1, .str "b"⟩),
         (3, 3, ⟨.num 0, .num 2, .str "c"⟩)]).2 =
      [⟨3, 0, 2, "c", 3⟩, ⟨2, 0, 1, "b", 2⟩, ⟨1, 0, 0, "a", 1⟩] := by
  exact listAllSortedByCreatedAtDesc.2 1 2 3 (by norm_num) (by norm_num)

/-- C5 counterexample: a storage failure on the POST /markers path is
surfaced as a 400 carrying the internal error message — not as a 500 with
a generic message — because the POST catch block maps every thrown error
to 400 with err.message (src/server.js:139-144). -/
theorem postStoreErrorNot500 :
    (postMarkersHandler (.error (.storeError msgConnLost))).status = 400 ∧
      (postMarkersHandler (.error (.storeError msgConnLost))).status ≠ 500 ∧
      postMarkersHandler (.error (.storeError msgConnLost)) =
        ⟨400, .obj [("status", .str statusFail), ("message", .str msgConnLost)]⟩ := by
  exact ⟨rfl, by decide, rfl⟩

/-- C5 amended: on GET /markers every thrown error — storage failures
included — is surfaced as a 500 with the fixed generic message; on
POST /markers every thrown error, ValidationError, DuplicateKeyError and
storage failures alike, is surfaced as a 400 carrying the error's own
message. -/
theorem errorSurfacing :
    (∀ e : JsError, getMarkersHandler (.error e) =
        ⟨500, .obj [("status", .str statusError), ("message", .str msgGetFailed)]⟩) ∧
    (∀ e : JsError, postMarkersHandler (.error e) =
        ⟨400, .obj [("status", .str statusFail), ("message", .str e.message)]⟩) := by
  exact ⟨fun _ => rfl, fun _ => rfl⟩

/-- C6 counterexample: the first check's failure message is the source's
string "纬度不能为空", not the ValidationError message "latitude
required" stated by the claim. -/
theorem latRequiredMessageDiffers :
    validate ⟨.undef, .num 0, .str "x"⟩ = .error [msgLatRequired] ∧
      msgLatRequired ≠ "latitude required" := by
  exact ⟨rfl, by decide⟩

/-- C6 amended: validation checks the paths in the stated order — lat
present, lat range, lng present, lng range, content present, content
length — the earliest failing check's message coming first in the
collected error list, and every check's message is distinct; the message
for an absent latitude is "纬度不能为空" (the source's string), not
"latitude required". -/
theorem validationCheckOrder :
    (∀ lngv cv : Value, ∃ msgs, validate ⟨.undef, lngv, cv⟩ = .error msgs ∧
      msgs.head? = some msgLatRequired) ∧
    (∀ (q : ℚ) (lngv cv : Value), q < -90 →
      ∃ msgs, validate ⟨.num q, lngv, cv⟩ = .error msgs ∧ msgs.head? = some msgLatMin) ∧
    (∀ (q : ℚ) (lngv cv : Value), 90 < q →
      ∃ msgs, validate ⟨.num q, lngv, cv⟩ = .error msgs ∧ msgs.head? = some msgLatMax) ∧
    (∀ (p : ℚ) (cv : Value), -90 ≤ p → p ≤ 90 →
      ∃ msgs, validate ⟨.num p, .undef, cv⟩ = .error msgs ∧
        msgs.head? = some msgLngRequired) ∧
    (∀ (p q : ℚ) (cv : Value), -90 ≤ p → p ≤ 90 → q < -180 →
      ∃ msgs, validate ⟨.num p, .num q, cv⟩ = .error msgs ∧
        msgs.head? = some msgLngMin) ∧
    (∀ (p q : ℚ) (cv : Value), -90 ≤ p → p ≤ 90 → 180 < q →
      ∃ msgs, validate ⟨.num p, .num q, cv⟩ = .error msgs ∧
        msgs.head? = some msgLngMax) ∧
    (∀ p q : ℚ, -90 ≤ p → p ≤ 90 → -180 ≤ q → q ≤ 180 →
      validate ⟨.num p, .num q, .undef⟩ = .error [msgContentRequired]) ∧
    (∀ (p q : ℚ) (s : String), -90 ≤ p → p ≤ 90 → -180 ≤ q → q ≤ 180 →
      200 < (jsTrim s).length →
      validate ⟨.num p, .num q, .str s⟩ = .error [msgContentMax]) ∧
    List.Pairwise (fun a b => a ≠ b)
      [msgLatRequired, msgLatMin, msgLatMax, msgLngRequired, msgLngMin, msgLngMax,
       msgContentRequired, msgContentMin, msgContentMax] := by
  refine ⟨?_, ?_, ?_, ?_, ?_, ?_, ?_, ?_, ?_⟩
  · intro lngv cv
    refine ⟨msgLatRequired :: (errsOf (validateLng lngv) ++ errsOf (validateContent cv)),
      ?_, rfl⟩
    unfold validate
    rw [show validateLat Value.undef = Except.error msgLatRequired from rfl]
    rcases validateLng lngv with m2 | ln <;> rcases validateContent cv with m3 | c <;>
      simp [errsOf]
  · intro q lngv cv hq
    have hlat : validateLat (.num q) = .error msgLatMin := by
      simp [validateLat, castNumber, hq]
    refine ⟨msgLatMin :: (errsOf (validateLng lngv) ++ errsOf (validateContent cv)), ?_, rfl⟩
    unfold validate
    rw [hlat]
    rcases validateLng lngv with m2 | ln <;> rcases validateContent cv with m3 | c <;>
      simp [errsOf]
  · intro q lngv cv hq
    have hn : ¬ q < -90 := by
      intro h
      exact absurd (lt_trans h (by norm_num)) (not_lt.mpr (le_of_lt hq))
    have hlat : validateLat (.num q) = .error msgLatMax := by
      simp [validateLat, castNumber, hn, hq]
    refine ⟨msgLatMax :: (errsOf (validateLng lngv) ++ errsOf (validateContent cv)), ?_, rfl⟩
    unfold validate
    rw [hlat]
    rcases validateLng lngv with m2 | ln <;> rcases validateContent cv with m3 | c <;>
      simp [errsOf]
  · intro p cv h1 h2
    have hlat : validateLat (.num p) = .ok p := by
      simp [validateLat, castNumber, not_lt.mpr h1, not_lt.mpr h2]
    refine ⟨msgLngRequired :: errsOf (validateContent cv), ?_, rfl⟩
    unfold validate
    rw [hlat, show validateLng Value.undef = Except.error msgLngRequired from rfl]
    rcases validateContent cv with m3 | c <;> simp [errsOf]
  · intro p q cv h1 h2 hq
    have hlat : validateLat (.num p) = .ok p := by
      simp [validateLat, castNumber, not_lt.mpr h1, not_lt.mpr h2]
    have hlng : validateLng (.num q) = .error msgLngMin := by
      simp [validateLng, castNumber, hq]
    refine ⟨msgLngMin :: errsOf (validateContent cv), ?_, rfl⟩
    unfold validate
    rw [hlat, hlng]
    rcases validateContent cv with m3 | c <;> simp [errsOf]
  · intro p q cv h1 h2 hq
    have hlat : validateLat (.num p) = .ok p := by
      simp [validateLat, castNumber, not_lt.mpr h1, not_lt.mpr h2]
    have hn : ¬ q < -180 := by
      intro h
      exact absurd (lt_trans h (by norm_num)) (not_lt.mpr (le_of_lt hq))
    have hlng : validateLng (.num q) = .error msgLngMax := by
      simp [validateLng, castNumber, hn, hq]
    refine ⟨msgLngMax :: errsOf (validateContent cv), ?_, rfl⟩
    unfold validate
    rw [hlat, hlng]
    rcases validateContent cv with m3 | c <;> simp [errsOf]
  · intro p q h1 h2 h3 h4
    have hlat : validateLat (.num p) = .ok p := by
      simp [validateLat, castNumber, not_lt.mpr h1, not_lt.mpr h2]
    have hlng : validateLng (.num q) = .ok q := by
      simp [validateLng, castNumber, not_lt.mpr h3, not_lt.mpr h4]
    unfold validate
    rw [hlat, hlng, show validateContent Value.undef = Except.error msgContentRequired from rfl]
    simp [errsOf]
  · intro p q s h1 h2 h3 h4 hlen
    have hlat : validateLat (.num p) = .ok p := by
      simp [validateLat, castNumber, not_lt.mpr h1, not_lt.mpr h2]
    have hlng : validateLng (.num q) = .ok q := by
      simp [validateLng, castNumber, not_lt.mpr h3, not_lt.mpr h4]
    have hne : ¬ (jsTrim s).length = 0 := by omega
    have hge : ¬ (jsTrim s).length < 1 := by omega
    have hc : validateContent (.str s) = .error msgContentMax := by
      simp [validateContent, castString, hne, hge, hlen]
    unfold validate
    rw [hlat, hlng, hc]
    simp [errsOf]
  · decide

/-- C6 amended witness: a latitude of -91 yields a validation failure whose
first message is the latitude-minimum message. -/
theorem validationCheckOrder_witness :
    ∃ msgs, validate ⟨.num (-91), .num 0, .str "x"⟩ = .error msgs ∧
      msgs.head? = some msgLatMin := by
  exact validationCheckOrder.2.1 (-91) (.num 0) (.str "x") (by norm_num)

/-- C7: creating a marker from lat 45, lng -122 and content " hello " and
then listing all markers returns a marker at position (45, -122) whose
content is the normalized string "hello". -/
theorem roundTripHello :
    listAll (create [] 1 100 ⟨.num 45, .num (-122), .str " hello "⟩).2 =
        [⟨1, 45, -122, "hello", 100⟩] ∧
      ∃ mk ∈ listAll (create [] 1 100 ⟨.num 45, .num (-122), .str " hello "⟩).2,
        mk.lat = 45 ∧ mk.lng = -122 ∧ mk.content = "hello" := by
  refine ⟨rfl, ⟨⟨1, 45, -122, "hello", 100⟩, ?_, rfl, rfl, rfl⟩⟩
  rw [show listAll (create [] 1 100 ⟨.num 45, .num (-122), .str " hello "⟩).2 =
    [⟨1, 45, -122, "hello", 100⟩] from rfl]
  exact List.mem_singleton_self _

/-- C8 counterexample: the serialized marker carries no field named "id" —
its identifier field is "_id" (Mongoose default serialization, no virtuals
are enabled on the schema). -/
theorem markerJsonLacksId :
    (markerToJson ⟨1, 45, -122, "hello", 100⟩).keys =
        ["_id", "position", "content", "createdAt", "__v"] ∧
      "id" ∉ (markerToJson ⟨1, 45, -122, "hello", 100⟩).keys := by
  exact ⟨rfl, by decide⟩

/-- C8 amended: every marker in a successful POST or GET response is
serialized with top-level fields _id, position, content, createdAt and
__v — the identifier field is named "_id", not "id". -/
theorem responseMarkerShape :
    ∀ m : Marker,
      (postMarkersHandler (.ok m)).body.keys = ["status", "data"] ∧
      (∀ ms : List Marker, m ∈ ms →
        (getMarkersHandler (.ok ms)).body.keys = ["status", "data"]) ∧
      (markerToJson m).keys = ["_id", "position", "content", "createdAt", "__v"] ∧
      "id" ∉ (markerToJson m).keys := by
  intro m
  refine ⟨rfl, fun ms _ => rfl, rfl, ?_⟩
  rw [show (markerToJson m).keys = ["_id", "position", "content", "createdAt", "__v"] from rfl]
  decide

/-- C8 amended witness: the serialized shape at a concrete marker and a
concrete one-element listing. -/
theorem responseMarkerShape_witness :
    (postMarkersHandler (.ok ⟨1, 45, -122, "h", 0⟩)).body.keys = ["status", "data"] ∧
      (getMarkersHandler (.ok [⟨1, 45, -122, "h", 0⟩])).body.keys = ["status", "data"] ∧
      (markerToJson ⟨1, 45, -122, "h", 0⟩).keys =
        ["_id", "position", "content", "createdAt", "__v"] ∧
      "id" ∉ (markerToJson ⟨1, 45, -122, "h", 0⟩).keys := by
  have h := responseMarkerShape ⟨1, 45, -122, "h", 0⟩
  exact ⟨h.1, h.2.1 [⟨1, 45, -122, "h", 0⟩] (List.mem_singleton_self _), h.2.2.1, h.2.2.2⟩

/-- C9: any serialization of concurrent create calls all targeting the
same free (lat, lng) position yields exactly one success, every other call
failing with the duplicate-key error, and leaves exactly one stored record
at that position. -/
theorem concurrentCreatesSamePosition (la ln : ℚ) (calls : List (Nat × Int × ReqBody))
    (store : List Marker)
    (hstore : hasMarkerAt store la ln = false)
    (hbodies : ∀ c ∈ calls, ∃ d, validate c.2.2 = .ok d ∧ d.lat = la ∧ d.lng = ln)
    (hne : calls ≠ []) :
    (createSeq store calls).1.countP createSucceeded = 1 ∧
      (createSeq store calls).1.countP (fun r => ! createSucceeded r) =
        calls.length - 1 ∧
      (∀ r ∈ (createSeq store calls).1, createSucceeded r = false →
        r = .error (.duplicateKeyError msgDuplicateKey)) ∧
      countAt (createSeq store calls).2 la ln = 1 := by
  obtain ⟨h1, h2, h3⟩ := createSeq_one_success la ln calls store hstore hbodies hne
  refine ⟨h1, ?_, h2, ?_⟩
  · have hlen := createSeq_length store calls
    have hsum := List.length_eq_countP_add_countP createSucceeded (createSeq store calls).1
    have hfun : (fun a => decide (¬ createSucceeded a = true)) =
        (fun r => ! createSucceeded r) := by
      funext a
      cases ha : createSucceeded a <;> simp [ha]
    rw [hlen, h1, hfun] at hsum
    omega
  · rw [h3, countAt_eq_zero store la ln hstore]

/-- C9 witness: ten serialized create calls at (1, 1) against an empty
store yield exactly one success, nine duplicate-key failures, and one
stored record at (1, 1). -/
theorem concurrentCreatesSamePosition_witness :
    (createSeq []
        [(1, 0, ⟨.num 1, .num 1, .str "x"⟩), (2, 0, ⟨.num 1, .num 1, .str "x"⟩),
         (3, 0, ⟨.num 1, .num 1, .str "x"⟩), (4, 0, ⟨.num 1, .num 1, .str "x"⟩),
         (5, 0, ⟨.num 1, .num 1, .str "x"⟩), (6, 0, ⟨.num 1, .num 1, .str "x"⟩),
         (7, 0, ⟨.num 1, .num 1, .str "x"⟩), (8, 0, ⟨.num 1, .num 1, .str "x"⟩),
         (9, 0, ⟨.num 1, .num 1, .str "x"⟩), (10, 0, ⟨.num 1, .num 1, .str "x"⟩)]).1.countP
        createSucceeded = 1 ∧
      (createSeq []
        [(1, 0, ⟨.num 1, .num 1, .str "x"⟩), (2, 0, ⟨.num 1, .num 1, .str "x"⟩),
         (3, 0, ⟨.num 1, .num 1, .str "x"⟩), (4, 0, ⟨.num 1, .num 1, .str "x"⟩),
         (5, 0, ⟨.num 1, .num 1, .str "x"⟩), (6, 0, ⟨.num 1, .num 1, .str "x"⟩),
         (7, 0, ⟨.num 1, .num 1, .str "x"⟩), (8, 0, ⟨.num 1, .num 1, .str "x"⟩),
         (9, 0, ⟨.num 1, .num 1, .str "x"⟩),
         (10, 0, ⟨.num 1, .num 1, .str "x"⟩)]).1.countP
        (fun r => ! createSucceeded r) = 9 ∧
      countAt (createSeq []
        [(1, 0, ⟨.num 1, .num 1, .str "x"⟩), (2, 0, ⟨.num 1, .num 1, .str "x"⟩),
         (3, 0, ⟨.num 1, .num 1, .str "x"⟩), (4, 0, ⟨.num 1, .num 1, .str "x"⟩),
         (5, 0, ⟨.num 1, .num 1, .str "x"⟩), (6, 0, ⟨.num 1, .num 1, .str "x"⟩),
         (7, 0, ⟨.num 1, .num 1, .str "x"⟩), (8, 0, ⟨.num 1, .num 1, .str "x"⟩),
         (9, 0, ⟨.num 1, .num 1, .str "x"⟩),
         (10, 0, ⟨.num 1, .num 1, .str "x"⟩)]).2 1 1 = 1 := by
  obtain ⟨h1, h2, _, h4⟩ := concurrentCreatesSamePosition 1 1
    [(1, 0, ⟨.num 1, .num 1, .str "x"⟩), (2, 0, ⟨.num 1, .num 1, .str "x"⟩),
     (3, 0, ⟨.num 1, .num 1, .str "x"⟩), (4, 0, ⟨.num 1, .num 1, .str "x"⟩),
     (5, 0, ⟨.num 1, .num 1, .str "x"⟩), (6, 0, ⟨.num 1, .num 1, .str "x"⟩),
     (7, 0, ⟨.num 1, .num 1, .str "x"⟩), (8, 0, ⟨.num 1, .num 1, .str "x"⟩),
     (9, 0, ⟨.num 1, .num 1, .str "x"⟩), (10, 0, ⟨.num 1, .num 1, .str "x"⟩)] []
    rfl
    (by
      intro c hc
      fin_cases hc <;> exact ⟨⟨1, 1, "x"⟩, rfl, rfl, rfl⟩)
    (by simp)
  exact ⟨h1, h2, h4⟩

/-- C10: the schema casts request fields to the declared path types — a
numeric-string latitude or longitude and a numeric content are accepted,
and the stored marker holds the cast number and string values. -/
theorem schemaTypeCasting :
    (create [] 1 0 ⟨.str "45", .str "-122", .num 123⟩).1 =
        .ok ⟨1, 45, -122, "123", 0⟩ ∧
      (create [] 1 0 ⟨.str "45", .str "-122", .num 123⟩).2 =
        [⟨1, 45, -122, "123", 0⟩] := by
  exact ⟨rfl, rfl⟩

end MapApp

